import Mathlib

/-
Verification development for the aljazeera-news-scraper repository.

The definitions below are a shallow embedding of src/libs/Article.py and
src/libs/NewsScraper.py.  Selenium web elements are abstracted as
`ArticleNode` records carrying the text each fixed selector would return
(`None` when the element is absent).  Python `datetime` values are modelled
by `Date` (the parsed dates and the limit date carry no meaningful time of
day for the properties considered here).  Fallible Python code (uncaught
`ValueError` from `strptime`, uncaught `IndexError` from the image-URL
split) is modelled with `Except String`.
-/

namespace AljazeeraScraper

/-- A calendar date, modelling a Python `datetime` at day granularity. -/
structure Date where
  year : Int
  month : Nat
  day : Nat
deriving DecidableEq

/-- Python `datetime` comparison `<` (lexicographic year, month, day). -/
def dateLt (a b : Date) : Bool :=
  decide (a.year < b.year ∨ (a.year = b.year ∧
    (a.month < b.month ∨ (a.month = b.month ∧ a.day < b.day))))

/-- Gregorian leap year rule, as used by Python `datetime`. -/
def isLeap (y : Int) : Bool :=
  decide (y % 4 = 0 ∧ (y % 100 ≠ 0 ∨ y % 400 = 0))

/-- Days in a month, as validated by the Python `datetime` constructor. -/
def daysInMonth (y : Int) (m : Nat) : Nat :=
  if m = 2 then (if isLeap y then 29 else 28)
  else if m = 4 ∨ m = 6 ∨ m = 9 ∨ m = 11 then 30
  else 31

/-- The whitespace class of Python `str.strip` and the regex class `\s`
(ASCII part, which is all the scraped date strings contain). -/
def isPyWs (c : Char) : Bool :=
  c == ' ' || c == '\t' || c == '\n' || c == '\r' || c == '\x0b' || c == '\x0c'

/-- Python `str.strip()`: drop leading and trailing whitespace. -/
def stripChars (l : List Char) : List Char :=
  ((l.dropWhile isPyWs).reverse.dropWhile isPyWs).reverse

/-- One scan step of Python `str.replace(pat, "")` (left to right,
non-overlapping).  The fuel starts at the length of the scanned list, which
bounds the number of steps because `pat` is non-empty at every call site. -/
def removeAllFuel (pat : List Char) : Nat → List Char → List Char
  | _, [] => []
  | 0, l => l
  | fuel + 1, c :: t =>
    if pat.isPrefixOf (c :: t) then removeAllFuel pat fuel ((c :: t).drop pat.length)
    else c :: removeAllFuel pat fuel t

/-- Python `s.replace(pat, "")` for a non-empty `pat`. -/
def removeAll (pat l : List Char) : List Char := removeAllFuel pat l.length l

/-- Numeric value of a digit string. -/
def digitsToNat (l : List Char) : Nat :=
  l.foldl (fun a c => a * 10 + (c.toNat - '0'.toNat)) 0

/-- Month number of a lowercased three-letter abbreviation, as matched by
`strptime` directive `%b` (case-insensitive). -/
def monthOfAbbrev (s : List Char) : Option Nat :=
  if s = "jan".data then some 1
  else if s = "feb".data then some 2
  else if s = "mar".data then some 3
  else if s = "apr".data then some 4
  else if s = "may".data then some 5
  else if s = "jun".data then some 6
  else if s = "jul".data then some 7
  else if s = "aug".data then some 8
  else if s = "sep".data then some 9
  else if s = "oct".data then some 10
  else if s = "nov".data then some 11
  else if s = "dec".data then some 12
  else none

/-- Python `datetime.strptime(text, "%d %b %Y")`, returning `none` where
Python raises `ValueError`.  `%d` matches one or two digits giving a day in
1..31, each format space matches one-or-more whitespace, `%b` matches a
case-insensitive three-letter month abbreviation, `%Y` matches exactly four
digits, the whole string must be consumed, and the day must exist in the
given month and year. -/
def strptimeDMY (l : List Char) : Option Date :=
  let dayDigits := l.takeWhile Char.isDigit
  let day := digitsToNat dayDigits
  if ¬ (dayDigits.length = 1 ∨ dayDigits.length = 2) then none
  else if ¬ (1 ≤ day ∧ day ≤ 31) then none
  else
    let r1 := l.drop dayDigits.length
    let ws1 := r1.takeWhile isPyWs
    if ws1.isEmpty then none
    else
      let r2 := r1.drop ws1.length
      match r2 with
      | a :: b :: c :: r3 =>
        match monthOfAbbrev [a.toLower, b.toLower, c.toLower] with
        | none => none
        | some month =>
          let ws2 := r3.takeWhile isPyWs
          if ws2.isEmpty then none
          else
            let r4 := r3.drop ws2.length
            match r4 with
            | [y1, y2, y3, y4] =>
              if y1.isDigit && y2.isDigit && y3.isDigit && y4.isDigit then
                let year := digitsToNat [y1, y2, y3, y4]
                if 1 ≤ year ∧ day ≤ daysInMonth (Int.ofNat year) month then
                  some ⟨Int.ofNat year, month, day⟩
                else none
              else none
            | _ => none
      | _ => none

/-- Model of `Article._parse_date`: `None` or empty text silently yields no date;
non-empty text has every `"Last update"` occurrence removed, is stripped,
and is parsed with `strptime("%d %b %Y")` — an uncaught `ValueError`
(modelled as `Except.error`) if it does not match. -/
def parse_date (dateText : Option String) : Except String (Option Date) :=
  match dateText with
  | none => Except.ok none
  | some s =>
    if s = "" then Except.ok none
    else
      match strptimeDMY (stripChars (removeAll ("Last update").data s.data)) with
      | some d => Except.ok (some d)
      | none => Except.error "ValueError"

/-- Python `str.lower` (character-wise). -/
def pyLower (s : String) : String := String.mk (s.data.map Char.toLower)

/-- One scan step of Python `str.count(sub)` for a non-empty `sub`
(left to right, non-overlapping).  The fuel starts at the length of the
scanned list, which bounds the number of steps. -/
def pyCountAux (c : Char) (cs : List Char) : Nat → List Char → Nat
  | _, [] => 0
  | 0, _ :: _ => 0
  | fuel + 1, x :: xs =>
    if (c :: cs).isPrefixOf (x :: xs) then 1 + pyCountAux c cs fuel (xs.drop cs.length)
    else pyCountAux c cs fuel xs

/-- Python `s.count(sub)`: the empty substring is counted once per position
(`len(s) + 1`); otherwise occurrences are counted non-overlapping. -/
def str_count (s sub : String) : Nat :=
  match sub.data with
  | [] => s.data.length + 1
  | c :: cs => pyCountAux c cs s.data.length s.data

/-- Contribution of one optional field to `Article._count_matches`:
Python `if self.title: counter += self.title.lower().count(term.lower())`,
where the truthiness test skips both `None` and the empty string. -/
def count_matches_field (o : Option String) (search_term : String) : Nat :=
  match o with
  | none => 0
  | some s => if s = "" then 0 else str_count (pyLower s) (pyLower search_term)

/-- Model of `Article._count_matches`. -/
def count_matches (title description : Option String) (search_term : String) : Nat :=
  count_matches_field title search_term + count_matches_field description search_term

/-- Regex word character class `\w` (ASCII part). -/
def isWordChar (c : Char) : Bool := c.isAlphanum || c == '_'

/-- Digit-or-comma, the class `[\d,]` of the first money pattern. -/
def isDigitOrComma (c : Char) : Bool := c.isDigit || c == ','

/-- Match of the regex `\$\s?[\d,]+\.\d+` anchored at the head of the list. -/
def p1At : List Char → Bool
  | '$' :: rest =>
    let rest1 :=
      match rest with
      | c :: r => if isPyWs c then r else c :: r
      | [] => []
    let digits := rest1.takeWhile isDigitOrComma
    if digits.isEmpty then false
    else
      match rest1.drop digits.length with
      | '.' :: d :: _ => d.isDigit
      | _ => false
  | _ => false

/-- Model of `re.search` without boundary context: does the pattern match at some
position of the list? -/
def searchFrom (p : List Char → Bool) : List Char → Bool
  | [] => p []
  | c :: t => p (c :: t) || searchFrom p t

/-- Case-insensitive literal word match followed by a `\b` boundary:
the word must be a prefix (ignoring case) and the next character, if any,
must not be a word character. -/
def matchWordCI : List Char → List Char → Bool
  | [], rest =>
    match rest with
    | [] => true
    | c :: _ => !isWordChar c
  | _ :: _, [] => false
  | wc :: wt, c :: t => (c.toLower == wc.toLower) && matchWordCI wt t

/-- Match of `\d+\s*WORD\b` anchored at the head of the list (the shared
shape of the second and third money patterns). -/
def p23At (w : List Char) (l : List Char) : Bool :=
  let digits := l.takeWhile Char.isDigit
  if digits.isEmpty then false
  else matchWordCI w ((l.drop digits.length).dropWhile isPyWs)

/-- Is the position after `prev` a `\b` boundary for a match that starts
with a word character?  True at the start of the string or after a
non-word character. -/
def boundaryBefore : Option Char → Bool
  | none => true
  | some c => !isWordChar c

/-- Model of `re.search` for a pattern with a leading `\b` whose first character is
a word character: scan every position, remembering the previous character
for the boundary test. -/
def searchWithBoundary (p : List Char → Bool) : Option Char → List Char → Bool
  | prev, [] => boundaryBefore prev && p []
  | prev, c :: t => (boundaryBefore prev && p (c :: t)) || searchWithBoundary p (some c) t

/-- Search for `r"\$\s?[\d,]+\.\d+"` with IGNORECASE (the flag is
vacuous for this pattern). -/
def moneyPattern1 (s : String) : Bool := searchFrom p1At s.data

/-- Search for `r"\b\d+\s*dollars\b"` with IGNORECASE. -/
def moneyPattern2 (s : String) : Bool :=
  searchWithBoundary (p23At ("dollars").data) none s.data

/-- Search for `r"\b\d+\s*USD\b"` with IGNORECASE. -/
def moneyPattern3 (s : String) : Bool :=
  searchWithBoundary (p23At ("USD".data.map Char.toLower)) none s.data

/-- The three money patterns, in source order. -/
def moneyPatterns : List (String → Bool) := [moneyPattern1, moneyPattern2, moneyPattern3]

/-- Model of `if self.title and re.search(pattern, self.title, re.IGNORECASE)`:
Python truthiness skips `None` and the empty string before searching. -/
def optMoneyCheck (o : Option String) (p : String → Bool) : Bool :=
  match o with
  | none => false
  | some s => if s = "" then false else p s

/-- Model of `Article._find_money_mentions`: for each pattern in order, return true
if the (truthy) title or the (truthy) description matches it. -/
def find_money_mentions (title description : Option String) : Bool :=
  moneyPatterns.any (fun p => optMoneyCheck title p || optMoneyCheck description p)

/-- Model of `Article._parse_image_url`: no image element yields `(None, None)`;
otherwise the URL is split on the marker `"?q=tbn:"` — an uncaught
`IndexError` if the marker is absent — and the file name is the part before
the next `&`, suffixed with `".jpeg"`. -/
def parse_image_url (src : Option String) : Except String (Option String × Option String) :=
  match src with
  | none => Except.ok (none, none)
  | some url =>
    match url.splitOn "?q=tbn:" with
    | [] => Except.error "IndexError"
    | [_] => Except.error "IndexError"
    | _ :: part :: _ =>
      match part.splitOn "&" with
      | [] => Except.ok (some url, some ".jpeg")
      | name :: _ => Except.ok (some url, some (name ++ ".jpeg"))

/-- The text content a result-list node offers to the fixed selectors of
`Article.__init__`: `none` models an absent element, `some ""` an element
whose text is empty. -/
structure ArticleNode where
  titleText : Option String
  dateText : Option String
  descriptionText : Option String
  imageSrc : Option String
deriving DecidableEq

/-- An `Article` after construction (the data attributes of the Python
object; the web element, output directory and logger handles are not
data). -/
structure Article where
  title : Option String
  date : Option Date
  description : Option String
  image_url : Option String
  image_file_name : Option String
  matches_count : Nat
  has_money : Bool
  search_term : String
deriving DecidableEq

/-- Model of `Article.__init__`: parse the fields in source order; an uncaught
exception from date or image parsing aborts construction. -/
def Article.build (node : ArticleNode) (search_term : String) : Except String Article :=
  let title := node.titleText
  match parse_date node.dateText with
  | Except.error e => Except.error e
  | Except.ok date =>
    let description := node.descriptionText
    match parse_image_url node.imageSrc with
    | Except.error e => Except.error e
    | Except.ok (image_url, image_file_name) =>
      Except.ok ⟨title, date, description, image_url, image_file_name,
        count_matches title description search_term,
        find_money_mentions title description,
        search_term⟩

/-
Model of src/libs/NewsScraper.py.

The browser is abstracted by `visible : Nat → List ArticleNode`, the full
list of result nodes visible after a given number of successful "load
more" clicks, together with `loadsAvail`, the number of clicks that will
succeed (after that the "Show more" button is gone and
`load_more_articles` returns `False`).
-/

/-- Model of `pandas.tseries.offsets.DateOffset(months = n)` subtracted from a date:
shift the month back by `n`, clamping the day to the length of the target
month. -/
def monthsBack (d : Date) (n : Nat) : Date :=
  let total : Int := d.year * 12 + (Int.ofNat d.month) - 1 - (Int.ofNat n)
  let y := Int.fdiv total 12
  let m := (Int.fmod total 12).toNat + 1
  ⟨y, m, min d.day (daysInMonth y m)⟩

/-- The date-cutoff test of the collection loop:
`if current_article.date and current_article.date < limit_date` (a
`datetime` is always truthy, so this is "date present and earlier"). -/
def offending (a : Article) (limit : Date) : Bool :=
  match a.date with
  | some d => dateLt d limit
  | none => false

/-- The `while list_of_articles_elements:` loop of
`NewsScraper.collect_articles`.  State: the not-yet-processed visible
nodes, the session article list (`self.articles`), and the number of
successful loads so far.  The result records the article list, the load
count, and `some message` when the loop was abandoned by an uncaught
exception from `Article` construction (in Python `self.articles` keeps the
articles collected before the exception).  `fuel` bounds the number of
iterations; every property proved below holds for every fuel value. -/
def collectLoop (visible : Nat → List ArticleNode) (loadsAvail : Nat) (limit : Date)
    (term : String) : Nat → List ArticleNode → List Article → Nat →
    List Article × Nat × Option String
  | 0, _, arts, d => (arts, d, some "fuel exhausted")
  | _ + 1, [], arts, d => (arts, d, none)
  | fuel + 1, node :: rest, arts, d =>
    match Article.build node term with
    | Except.error e => (arts, d, some e)
    | Except.ok a =>
      if offending a limit then (arts, d, none)
      else
        let arts2 := arts ++ [a]
        if rest.isEmpty then
          if d < loadsAvail then
            collectLoop visible loadsAvail limit term fuel
              ((visible (d + 1)).drop arts2.length) arts2 (d + 1)
          else (arts2, d, none)
        else collectLoop visible loadsAvail limit term fuel rest arts2 d

/-- Unfolding of one loop iteration whose head article fails to build. -/
theorem collectLoop_cons_error (visible : Nat → List ArticleNode) (loadsAvail : Nat)
    (limit : Date) (term : String) (fuel : Nat) (node : ArticleNode)
    (rest : List ArticleNode) (arts : List Article) (d : Nat) (e : String)
    (hb : Article.build node term = Except.error e) :
    collectLoop visible loadsAvail limit term (fuel + 1) (node :: rest) arts d =
      (arts, d, some e) := by
  rw [collectLoop, hb]

/-- Unfolding of one loop iteration whose head article builds. -/
theorem collectLoop_cons_ok (visible : Nat → List ArticleNode) (loadsAvail : Nat)
    (limit : Date) (term : String) (fuel : Nat) (node : ArticleNode)
    (rest : List ArticleNode) (arts : List Article) (d : Nat) (a : Article)
    (hb : Article.build node term = Except.ok a) :
    collectLoop visible loadsAvail limit term (fuel + 1) (node :: rest) arts d =
      if offending a limit then (arts, d, none)
      else if rest.isEmpty then
        if d < loadsAvail then
          collectLoop visible loadsAvail limit term fuel
            ((visible (d + 1)).drop (arts ++ [a]).length) (arts ++ [a]) (d + 1)
        else (arts ++ [a], d, none)
      else collectLoop visible loadsAvail limit term fuel rest (arts ++ [a]) d := by
  rw [collectLoop, hb]

/-- Model of `NewsScraper.collect_articles`: compute the limit date once
(`datetime.today() - DateOffset(months = number_of_months)`), read the
initially visible result list, and run the collection loop.  `initArts` is
the value of `self.articles` on entry — the constructor sets it to `[]`
once per scraper instance and `collect_articles` never resets it. -/
def collect_articles (visible : Nat → List ArticleNode) (loadsAvail : Nat)
    (today : Date) (term : String) (months : Nat) (fuel : Nat)
    (initArts : List Article) : List Article × Nat × Option String :=
  collectLoop visible loadsAvail (monthsBack today months) term fuel (visible 0) initArts 0

/-- Value of `self.articles` as `NewsScraper.__init__` leaves it. -/
def initialArticles : List Article := []

/-- Build an `Article` from every node of a list, propagating the first
construction error (used only to state deduplication: the committed list
is the node-wise build of a prefix of the final visible list). -/
def buildAll (term : String) : List ArticleNode → Except String (List Article)
  | [] => Except.ok []
  | n :: ns =>
    match Article.build n term with
    | Except.error e => Except.error e
    | Except.ok a =>
      match buildAll term ns with
      | Except.error e => Except.error e
      | Except.ok as2 => Except.ok (a :: as2)

/-- One cell of the tabular report (`pandas` object values; `empty` models
`None`/`NaN`). -/
inductive Cell where
  | str (v : String)
  | date (v : Date)
  | nat (v : Nat)
  | bool (v : Bool)
  | empty
deriving DecidableEq

/-- Cell for an optional string attribute. -/
def optCell : Option String → Cell
  | some s => Cell.str s
  | none => Cell.empty

/-- Cell for the optional date attribute. -/
def dateCell : Option Date → Cell
  | some d => Cell.date d
  | none => Cell.empty

/-- Model of `vars(article)` restricted to the data attributes, as an ordered
association list (the `element`, `output_dir` and `logger` handles carried
by the Python object are not data and are not modelled). -/
def articleVars (a : Article) : List (String × Cell) :=
  [("search_term", Cell.str a.search_term),
   ("title", optCell a.title),
   ("date", dateCell a.date),
   ("description", optCell a.description),
   ("image_url", optCell a.image_url),
   ("image_file_name", optCell a.image_file_name),
   ("matches_count", Cell.nat a.matches_count),
   ("has_money", Cell.bool a.has_money)]

/-- Column lookup in a `vars` record (pandas would raise `KeyError` for a
missing column; the report columns are always present). -/
def lookupVar : List (String × Cell) → String → Cell
  | [], _ => Cell.empty
  | (k, v) :: rest, key => if k = key then v else lookupVar rest key

/-- The column selection of `NewsScraper.create_report`, in source order. -/
def reportColumns : List String :=
  ["title", "date", "description", "image_file_name", "matches_count", "has_money"]

/-- One report row: the selected columns of one article. -/
def reportRow (a : Article) : List Cell :=
  reportColumns.map (lookupVar (articleVars a))

/-- Model of `NewsScraper.create_report`: build the dataframe (one row per
article, in list order), select the report columns, then write the result
both as CSV and as a spreadsheet — both serializations of the same table,
each starting with the header row.  For an empty article list the source
builds `pd.DataFrame([])`, which has no columns at all, so the column
selection raises an uncaught `KeyError` and no report is written. -/
def create_report (articles : List Article) :
    Except String (List (List Cell) × List (List Cell)) :=
  match articles with
  | [] => Except.error "KeyError"
  | _ :: _ =>
    let table := (reportColumns.map Cell.str) :: articles.map reportRow
    Except.ok (table, table)

/-- The browser effect of `NewsScraper.sort_by` when it succeeds. -/
inductive BrowserAction where
  | clickOptionWithValue (value : String)
deriving DecidableEq

/-- Model of `NewsScraper.sort_by`: any key other than `"date"` or `"relevance"`
raises a `ValueError` before any browser interaction; both accepted keys
click the option element whose value attribute is `"date"`. -/
def sort_by (key : String) : Except String BrowserAction :=
  if key = "date" ∨ key = "relevance" then
    Except.ok (BrowserAction.clickOptionWithValue "date")
  else Except.error ("Sorting by " ++ key ++ " not supported.")

/-! Section: Helper lemmas -/

theorem data_eq_nil_iff (s : String) : s.data = [] ↔ s = "" := by
  constructor
  · intro h
    cases s
    simp_all
  · intro h
    subst h
    rfl

theorem pyLower_empty : pyLower "" = "" := rfl

theorem pyLower_eq_empty_iff (p : String) : pyLower p = "" ↔ p = "" := by
  constructor
  · intro h
    have h2 : p.data.map Char.toLower = [] := by
      have h3 := congrArg String.data h
      simpa [pyLower] using h3
    exact (data_eq_nil_iff p).mp (List.map_eq_nil_iff.mp h2)
  · intro h
    subst h
    rfl

theorem pyLower_length (s : String) : (pyLower s).length = s.length := by
  show (s.data.map Char.toLower).length = s.data.length
  simp

theorem str_count_empty_phrase (s : String) : str_count s "" = s.length + 1 := rfl

theorem str_count_in_empty (q : String) (hq : q ≠ "") : str_count "" q = 0 := by
  obtain ⟨c, cs, hc⟩ : ∃ c cs, q.data = c :: cs := by
    cases hd : q.data with
    | nil => exact absurd ((data_eq_nil_iff q).mp hd) hq
    | cons c cs => exact ⟨c, cs, rfl⟩
  simp [str_count, hc, pyCountAux]

/-! Section: Claim C2 -/

/-- C2 (counterexample): an `Article` built from a node whose date text is
non-empty but does not match the `%d %b %Y` format does not silently keep
an empty date — construction raises (an uncaught `ValueError` from
`strptime`), modelled as an error result. -/
theorem date_parse_not_silent_cx :
    Article.build ⟨some "T", some "Yesterday", none, none⟩ "x" =
      Except.error "ValueError" := rfl

/-- C2 (amended): for non-empty date text that does not match the fixed
format (after removing `"Last update"` and stripping whitespace),
construction raises a `ValueError` that propagates; only an absent date
element or empty date text yields a silently empty date. -/
theorem date_parse_failure_behaviour :
    (∀ s : String, s ≠ "" →
        strptimeDMY (stripChars (removeAll ("Last update").data s.data)) = none →
        parse_date (some s) = Except.error "ValueError") ∧
    parse_date none = Except.ok none ∧
    parse_date (some "") = Except.ok none ∧
    (∀ (node : ArticleNode) (term e : String),
        parse_date node.dateText = Except.error e →
        Article.build node term = Except.error e) := by
  refine ⟨?_, rfl, rfl, ?_⟩
  · intro s hs hparse
    simp [parse_date, hs, hparse]
  · intro node term e h
    simp [Article.build, h]

/-- C2 (witness): the amended statement at the concrete date text
`"Yesterday"`. -/
theorem date_parse_failure_behaviour_witness :
    parse_date (some "Yesterday") = Except.error "ValueError" ∧
    Article.build ⟨some "N", some "Yesterday", none, none⟩ "q" =
      Except.error "ValueError" := by
  have h1 := date_parse_failure_behaviour.1 "Yesterday" (by decide) (by decide)
  exact ⟨h1, date_parse_failure_behaviour.2.2.2
    ⟨some "N", some "Yesterday", none, none⟩ "q" "ValueError" h1⟩

/-! Section: Claims C4 and C9 -/

/-- The specification-side occurrence count of C4: the case-insensitive
substring occurrence count of the phrase in a text (non-overlapping, with
the empty phrase occurring once per position, consistently with the
`n + 1` convention that claim C9 asserts). -/
def spec_occurrence_count (phrase text : String) : Nat :=
  str_count (pyLower text) (pyLower phrase)

/-- Contribution of one optional field to the specification-side count:
occurrence count of the phrase in the field when present, 0 when absent. -/
def spec_match_field (o : Option String) (phrase : String) : Nat :=
  match o with
  | some t => spec_occurrence_count phrase t
  | none => 0

/-- The specification-side match count of C4: occurrence counts of the
phrase in title and description summed independently, an absent field
contributing 0. -/
def spec_match_count (title description : Option String) (phrase : String) : Nat :=
  spec_match_field title phrase + spec_match_field description phrase

theorem count_matches_field_eq_spec (o : Option String) (p : String)
    (h : p ≠ "" ∨ o ≠ some "") :
    count_matches_field o p = spec_match_field o p := by
  cases o with
  | none => rfl
  | some s =>
    by_cases hs : s = ""
    · subst hs
      have hp : p ≠ "" := by
        rcases h with h | h
        · exact h
        · simp at h
      have hps : pyLower p ≠ "" := fun hc => hp ((pyLower_eq_empty_iff p).mp hc)
      show (0 : Nat) = str_count "" (pyLower p)
      exact (str_count_in_empty _ hps).symm
    · simp [count_matches_field, hs, spec_match_field, spec_occurrence_count]

/-- C4 (counterexample): with the empty search phrase and an empty-string
(present but empty) title, the constructed matches count is 3, while the
sum of the occurrence counts of the phrase in title and description is 4 —
Python truthiness makes the code treat the present empty title as absent. -/
theorem match_count_spec_divergence_cx :
    Article.build ⟨some "", none, some "ab", none⟩ "" =
      Except.ok ⟨some "", none, some "ab", none, none, 3, false, ""⟩ ∧
    spec_match_count (some "") (some "ab") "" = 4 ∧ (3 : Nat) ≠ 4 := by
  refine ⟨rfl, by decide, by decide⟩

/-- C4 (amended): matches count equals the independent sum of the
case-insensitive occurrence counts of the phrase in title and description
(absent fields contributing 0) whenever the phrase is non-empty, or both
present fields are non-empty; the code treats a present-but-empty field
like an absent one, which only matters for the empty phrase.  The claimed
example is included: phrase "oil" on title "Oil prices and oil futures"
gives 2. -/
theorem match_count_agrees_with_spec :
    (∀ (title description : Option String) (phrase : String),
        phrase ≠ "" ∨ (title ≠ some "" ∧ description ≠ some "") →
        count_matches title description phrase = spec_match_count title description phrase) ∧
    count_matches (some "Oil prices and oil futures") none "oil" = 2 := by
  constructor
  · intro t d p h
    unfold count_matches spec_match_count
    rw [count_matches_field_eq_spec t p (h.imp_right And.left),
      count_matches_field_eq_spec d p (h.imp_right And.right)]
  · decide

/-- C4 (witness): the amended statement at the claimed example. -/
theorem match_count_agrees_with_spec_witness :
    count_matches (some "Oil prices and oil futures") none "oil" =
      spec_match_count (some "Oil prices and oil futures") none "oil" :=
  match_count_agrees_with_spec.1 (some "Oil prices and oil futures") none "oil"
    (Or.inl (by decide))

/-- C9 (counterexample): with the empty phrase and a present-but-empty
title, the matches count is 2, not `len(title) + len(description) + 2 = 3`:
the code skips falsy (empty) fields. -/
theorem empty_phrase_empty_title_cx :
    Article.build ⟨some "", none, some "x", none⟩ "" =
      Except.ok ⟨some "", none, some "x", none, none, 2, false, ""⟩ ∧
    ("" : String).length + ("x" : String).length + 2 = 3 ∧ (2 : Nat) ≠ 3 := by
  refine ⟨rfl, by decide, by decide⟩

/-- C9 (amended): for the empty search phrase and non-empty title and
description, the matches count is `len(title) + len(description) + 2`,
because Python counts `len(s) + 1` occurrences of the empty string in a
string of length `len(s)`. -/
theorem empty_phrase_match_count :
    ∀ t d : String, t ≠ "" → d ≠ "" →
      count_matches (some t) (some d) "" = t.length + d.length + 2 := by
  intro t d ht hd
  unfold count_matches count_matches_field
  simp only [if_neg ht, if_neg hd, pyLower_empty, str_count_empty_phrase, pyLower_length]
  omega

/-- C9 (witness): the amended statement at title "a", description "b". -/
theorem empty_phrase_match_count_witness :
    count_matches (some "a") (some "b") "" = ("a" : String).length + ("b" : String).length + 2 :=
  empty_phrase_match_count "a" "b" (by decide) (by decide)

/-! Section: Claim C5 -/

/-- The specification-side reading of C5: the field is present and matches
one of the three money patterns. -/
def matchesAnyMoneyPattern (o : Option String) : Bool :=
  match o with
  | some s => moneyPattern1 s || moneyPattern2 s || moneyPattern3 s
  | none => false

/-- The money flag of a successfully constructed article. -/
def built_has_money (n : ArticleNode) (term : String) : Option Bool :=
  match Article.build n term with
  | Except.ok a => some a.has_money
  | Except.error _ => none

/-- C5: the three claimed positive examples and the claimed negative
example for `has_money` (title absent in each); and in general the flag is
exactly "title or description matches one of the three case-insensitive
money patterns" (an empty string matches none of them, so Python skipping
falsy fields does not change the value). -/
theorem money_examples_and_characterisation :
    built_has_money ⟨none, none, some "Losses of $1,200.50 reported", none⟩ "x" = some true ∧
    built_has_money ⟨none, none, some "Cost was 20 dollars", none⟩ "x" = some true ∧
    built_has_money ⟨none, none, some "Paid 15 USD", none⟩ "x" = some true ∧
    built_has_money ⟨none, none, some "Market fell sharply", none⟩ "x" = some false ∧
    ∀ t d : Option String,
      find_money_mentions t d = (matchesAnyMoneyPattern t || matchesAnyMoneyPattern d) := by
  refine ⟨by decide, by decide, by decide, by decide, ?_⟩
  intro t d
  rcases t with _ | s
  · rcases d with _ | r
    · rfl
    · by_cases hr : r = ""
      · subst hr; decide
      · simp only [find_money_mentions, moneyPatterns, matchesAnyMoneyPattern, optMoneyCheck,
          List.any_cons, List.any_nil, if_neg hr, Bool.false_or, Bool.or_false]
        rw [Bool.or_assoc]
  · rcases d with _ | r
    · by_cases hs : s = ""
      · subst hs; decide
      · simp only [find_money_mentions, moneyPatterns, matchesAnyMoneyPattern, optMoneyCheck,
          List.any_cons, List.any_nil, if_neg hs, Bool.false_or, Bool.or_false]
        rw [Bool.or_assoc]
    · by_cases hs : s = ""
      · subst hs
        by_cases hr : r = ""
        · subst hr; decide
        · simp only [find_money_mentions, moneyPatterns, matchesAnyMoneyPattern, optMoneyCheck,
            List.any_cons, List.any_nil, if_pos rfl, if_neg hr, Bool.false_or, Bool.or_false]
          have e1 : moneyPattern1 "" = false := rfl
          have e2 : moneyPattern2 "" = false := rfl
          have e3 : moneyPattern3 "" = false := rfl
          rw [e1, e2, e3]
          simp [Bool.or_assoc]
      · by_cases hr : r = ""
        · subst hr
          simp only [find_money_mentions, moneyPatterns, matchesAnyMoneyPattern, optMoneyCheck,
            List.any_cons, List.any_nil, if_pos rfl, if_neg hs, Bool.false_or, Bool.or_false]
          have e1 : moneyPattern1 "" = false := rfl
          have e2 : moneyPattern2 "" = false := rfl
          have e3 : moneyPattern3 "" = false := rfl
          rw [e1, e2, e3]
          simp [Bool.or_assoc]
        · simp only [find_money_mentions, moneyPatterns, matchesAnyMoneyPattern, optMoneyCheck,
            List.any_cons, List.any_nil, if_neg hs, if_neg hr, Bool.or_false]
          generalize moneyPattern1 s = b1
          generalize moneyPattern2 s = b2
          generalize moneyPattern3 s = b3
          generalize moneyPattern1 r = c1
          generalize moneyPattern2 r = c2
          generalize moneyPattern3 r = c3
          revert b1 b2 b3 c1 c2 c3
          decide

/-! Section: Claim C6 -/

/-- C6: the limit date is `today` minus `number_of_months` calendar months
(computed once, before the loop, in `collect_articles`); with
`number_of_months = 2` and today 2024-03-15 it is 2024-01-15, and a
collection run with that limit keeps an article dated exactly 2024-01-15
but stops at one dated 2024-01-14. -/
theorem limit_date_two_months_example :
    monthsBack ⟨2024, 3, 15⟩ 2 = ⟨2024, 1, 15⟩ ∧
    collect_articles
        (fun _ => [⟨some "Alpha", some "15 Jan 2024", none, none⟩,
          ⟨some "Beta", some "14 Jan 2024", none, none⟩]) 0
        ⟨2024, 3, 15⟩ "q" 2 5 [] =
      ([⟨some "Alpha", some ⟨2024, 1, 15⟩, none, none, none, 0, false, "q"⟩], 0, none) := by
  exact ⟨by decide, by decide⟩

/-! Section: Claim C7 -/

/-- C7 (counterexample): for the empty collected article list no report
with one row per article is produced at all — the source's
`pd.DataFrame([])` has no columns, so selecting the six report columns
raises an uncaught `KeyError`. -/
theorem report_empty_list_cx :
    create_report [] = Except.error "KeyError" := rfl

/-- C7 (amended): for every non-empty collected article list, the report
table is the header row followed by one row per article in collection
order; each row lists exactly the six columns title, date, description,
image file name, matches count, has-money in that order; the header
serializes to the claimed CSV header line; and the CSV and spreadsheet
outputs are the same table.  For the empty list `create_report` raises a
`KeyError` instead. -/
theorem report_shape :
    String.intercalate "," reportColumns =
      "title,date,description,image_file_name,matches_count,has_money" ∧
    (∀ arts : List Article, arts ≠ [] →
        create_report arts =
          Except.ok ((reportColumns.map Cell.str) :: arts.map reportRow,
            (reportColumns.map Cell.str) :: arts.map reportRow)) ∧
    (∀ a : Article, reportRow a =
        [optCell a.title, dateCell a.date, optCell a.description, optCell a.image_file_name,
          Cell.nat a.matches_count, Cell.bool a.has_money]) ∧
    (∀ a : Article, (reportRow a).length = 6) := by
  refine ⟨by decide, ?_, fun a => rfl, fun a => rfl⟩
  intro arts harts
  cases arts with
  | nil => exact absurd rfl harts
  | cons a rest => rfl

/-- C7 (witness): the amended statement at a concrete one-article list. -/
theorem report_shape_witness :
    ([⟨some "T", none, none, none, none, 0, false, "x"⟩] : List Article) ≠ [] ∧
    create_report [⟨some "T", none, none, none, none, 0, false, "x"⟩] =
      Except.ok ((reportColumns.map Cell.str) ::
          ([⟨some "T", none, none, none, none, 0, false, "x"⟩] : List Article).map reportRow,
        (reportColumns.map Cell.str) ::
          ([⟨some "T", none, none, none, none, 0, false, "x"⟩] : List Article).map reportRow) := by
  constructor
  · decide
  · exact report_shape.2.1 [⟨some "T", none, none, none, none, 0, false, "x"⟩] (by decide)

/-! Section: Claim C10 -/

/-- C10: both accepted sort keys click the option whose value is "date"
(so "relevance" performs the same browser action as "date"), and every
other key raises a `ValueError` before any browser interaction (the error
branch of `sort_by` performs no action). -/
theorem sort_by_always_clicks_date :
    sort_by "date" = Except.ok (BrowserAction.clickOptionWithValue "date") ∧
    sort_by "relevance" = sort_by "date" ∧
    ∀ k : String, k ≠ "date" → k ≠ "relevance" →
      sort_by k = Except.error ("Sorting by " ++ k ++ " not supported.") := by
  refine ⟨rfl, rfl, ?_⟩
  intro k h1 h2
  simp [sort_by, h1, h2]

/-- C10 (witness): the rejection branch at the concrete key "title". -/
theorem sort_by_always_clicks_date_witness :
    sort_by "title" = Except.error ("Sorting by " ++ "title" ++ " not supported.") :=
  sort_by_always_clicks_date.2.2 "title" (by decide) (by decide)

/-! Section: Claim C1 -/

/-- C1: (1) every article in the loop result was either already in the
list on entry or passes the date cutoff — the loop never appends an
article whose parsed date is present and strictly earlier than the limit
date; (2) the first offending article encountered stops the loop
immediately with the list unchanged (that article excluded). -/
theorem collect_never_appends_early_article :
    (∀ (visible : Nat → List ArticleNode) (loadsAvail : Nat) (limit : Date) (term : String)
        (fuel : Nat) (pending : List ArticleNode) (arts : List Article) (d : Nat),
        ∀ a ∈ (collectLoop visible loadsAvail limit term fuel pending arts d).1,
          a ∈ arts ∨ offending a limit = false) ∧
    (∀ (visible : Nat → List ArticleNode) (loadsAvail : Nat) (limit : Date) (term : String)
        (fuel : Nat) (node : ArticleNode) (rest : List ArticleNode) (arts : List Article)
        (d : Nat) (a : Article),
        Article.build node term = Except.ok a → offending a limit = true →
        collectLoop visible loadsAvail limit term (fuel + 1) (node :: rest) arts d =
          (arts, d, none)) := by
  constructor
  · intro visible loadsAvail limit term fuel
    induction fuel with
    | zero =>
      intro pending arts d a ha
      exact Or.inl ha
    | succ fuel ih =>
      intro pending arts d a ha
      cases pending with
      | nil => exact Or.inl ha
      | cons node rest =>
        cases hb : Article.build node term with
        | error e =>
          rw [collectLoop_cons_error visible loadsAvail limit term fuel node rest arts d e hb] at ha
          exact Or.inl ha
        | ok a0 =>
          rw [collectLoop_cons_ok visible loadsAvail limit term fuel node rest arts d a0 hb] at ha
          by_cases hoff : offending a0 limit = true
          · rw [if_pos hoff] at ha
            exact Or.inl ha
          · have hoff2 : offending a0 limit = false := by
              simpa using hoff
            rw [if_neg hoff] at ha
            have step : ∀ b, b ∈ arts ++ [a0] → b ∈ arts ∨ offending b limit = false := by
              intro b hb2
              rcases List.mem_append.mp hb2 with h | h
              · exact Or.inl h
              · rw [List.mem_singleton.mp h]
                exact Or.inr hoff2
            cases rest with
            | nil =>
              rw [if_pos List.isEmpty_nil] at ha
              by_cases hd : d < loadsAvail
              · rw [if_pos hd] at ha
                rcases ih _ _ _ a ha with h | h
                · exact step a h
                · exact Or.inr h
              · rw [if_neg hd] at ha
                exact step a ha
            | cons r rs =>
              rw [if_neg (by simp : ¬((r :: rs).isEmpty = true))] at ha
              rcases ih _ _ _ a ha with h | h
              · exact step a h
              · exact Or.inr h
  · intro visible loadsAvail limit term fuel node rest arts d a hb hoff
    rw [collectLoop_cons_ok visible loadsAvail limit term fuel node rest arts d a hb,
      if_pos hoff]

/-- C1 (witness): part (2) at a concrete article dated 2020-01-01 with
limit date 2024-01-01 (the loop stops, nothing appended), and part (1) at
the article collected in a concrete one-node run. -/
theorem collect_never_appends_early_article_witness :
    collectLoop (fun _ => []) 0 ⟨2024, 1, 1⟩ "x" 2
        [⟨some "Old", some "01 Jan 2020", none, none⟩] [] 0 = ([], 0, none) ∧
    ((⟨some "G", none, none, none, none, 0, false, "x"⟩ : Article) ∈ ([] : List Article) ∨
      offending ⟨some "G", none, none, none, none, 0, false, "x"⟩ ⟨2024, 1, 1⟩ = false) := by
  constructor
  · exact collect_never_appends_early_article.2 (fun _ => []) 0 ⟨2024, 1, 1⟩ "x" 1
      ⟨some "Old", some "01 Jan 2020", none, none⟩ [] [] 0
      ⟨some "Old", some ⟨2020, 1, 1⟩, none, none, none, 0, false, "x"⟩ rfl rfl
  · exact collect_never_appends_early_article.1 (fun _ => [⟨some "G", none, none, none⟩]) 0
      ⟨2024, 1, 1⟩ "x" 2 [⟨some "G", none, none, none⟩] [] 0
      ⟨some "G", none, none, none, none, 0, false, "x"⟩ (by decide)

/-! Section: Claim C3 -/

theorem getElem?_of_drop_eq_cons {α : Type} {l : List α} {n : Nat} {x : α} {t : List α}
    (h : l.drop n = x :: t) : l[n]? = some x := by
  have h0 : (l.drop n)[0]? = some x := by rw [h]; simp
  rwa [List.getElem?_drop, Nat.add_zero] at h0

theorem drop_of_drop_eq_cons {α : Type} {l : List α} {n : Nat} {x : α} {t : List α}
    (h : l.drop n = x :: t) : l.drop (n + 1) = t := by
  have h1 : List.drop 1 (List.drop n l) = List.drop (n + 1) l := List.drop_drop 1 n l
  rw [← h1, h]
  rfl

theorem take_succ_of_drop_eq_cons {α : Type} {l : List α} {n : Nat} {x : α} {t : List α}
    (h : l.drop n = x :: t) : l.take (n + 1) = l.take n ++ [x] := by
  rw [List.take_succ, getElem?_of_drop_eq_cons h]
  rfl

theorem length_lt_of_drop_eq_cons {α : Type} {l : List α} {n : Nat} {x : α} {t : List α}
    (h : l.drop n = x :: t) : n < l.length := by
  by_contra hn
  push_neg at hn
  rw [List.drop_eq_nil_of_le hn] at h
  exact List.noConfusion h

theorem prefix_take_eq {α : Type} {l₁ l₂ : List α} (h : l₁ <+: l₂) {n : Nat}
    (hn : n ≤ l₁.length) : l₂.take n = l₁.take n := by
  obtain ⟨t, rfl⟩ := h
  rw [List.take_append_eq_append_take]
  have h0 : n - l₁.length = 0 := by omega
  simp [h0]

theorem buildAll_snoc {term : String} {l : List ArticleNode} {as : List Article}
    {n : ArticleNode} {a : Article} (h1 : buildAll term l = Except.ok as)
    (h2 : Article.build n term = Except.ok a) :
    buildAll term (l ++ [n]) = Except.ok (as ++ [a]) := by
  induction l generalizing as with
  | nil =>
    simp only [buildAll] at h1
    cases h1
    simp [buildAll, h2]
  | cons m ms ih =>
    rw [buildAll] at h1
    cases hm : Article.build m term with
    | error e => rw [hm] at h1; exact Except.noConfusion h1
    | ok am =>
      rw [hm] at h1
      cases hms : buildAll term ms with
      | error e => rw [hms] at h1; exact Except.noConfusion h1
      | ok asms =>
        rw [hms] at h1
        have h3 : as = am :: asms := (Except.ok.injEq _ _ ▸ h1).symm
        subst h3
        show buildAll term (m :: (ms ++ [n])) = Except.ok ((am :: asms) ++ [a])
        rw [buildAll, hm, ih hms]
        rfl

/-- The deduplication invariant of the collection loop: if the pending
nodes are exactly the visible list beyond the first `arts.length`
positions and the committed list is the node-wise build of the first
`arts.length` visible nodes, then the same holds of the final state —
each committed article comes from its own position of the final visible
list, so no position is ever extracted into the committed list twice. -/
theorem collectLoop_dedup (visible : Nat → List ArticleNode) (loadsAvail : Nat) (limit : Date)
    (term : String) (hpre : ∀ k, visible k <+: visible (k + 1)) :
    ∀ (fuel : Nat) (pending : List ArticleNode) (arts : List Article) (d : Nat),
      pending = (visible d).drop arts.length →
      buildAll term ((visible d).take arts.length) = Except.ok arts →
      buildAll term
          ((visible ((collectLoop visible loadsAvail limit term fuel pending arts d).2.1)).take
            (collectLoop visible loadsAvail limit term fuel pending arts d).1.length) =
        Except.ok (collectLoop visible loadsAvail limit term fuel pending arts d).1 := by
  intro fuel
  induction fuel with
  | zero =>
    intro pending arts d hpend hbuild
    simpa [collectLoop] using hbuild
  | succ fuel ih =>
    intro pending arts d hpend hbuild
    cases pending with
    | nil => simpa [collectLoop] using hbuild
    | cons node rest =>
      have hpend2 : (visible d).drop arts.length = node :: rest := hpend.symm
      have hlen : arts.length < (visible d).length := length_lt_of_drop_eq_cons hpend2
      cases hb : Article.build node term with
      | error e =>
        rw [collectLoop_cons_error visible loadsAvail limit term fuel node rest arts d e hb]
        simpa using hbuild
      | ok a =>
        rw [collectLoop_cons_ok visible loadsAvail limit term fuel node rest arts d a hb]
        by_cases hoff : offending a limit = true
        · rw [if_pos hoff]
          simpa using hbuild
        · rw [if_neg hoff]
          have htake : (visible d).take (arts.length + 1) = (visible d).take arts.length ++ [node] :=
            take_succ_of_drop_eq_cons hpend2
          have hbuild2 : buildAll term ((visible d).take (arts.length + 1)) =
              Except.ok (arts ++ [a]) := by
            rw [htake]
            exact buildAll_snoc hbuild hb
          cases rest with
          | nil =>
            rw [if_pos List.isEmpty_nil]
            by_cases hd : d < loadsAvail
            · rw [if_pos hd]
              apply ih
              · simp
              · have hle : arts.length + 1 ≤ (visible d).length := hlen
                rw [List.length_append, List.length_singleton,
                  prefix_take_eq (hpre d) hle]
                exact hbuild2
            · rw [if_neg hd]
              simpa using hbuild2
          | cons r rs =>
            rw [if_neg (by simp : ¬((r :: rs).isEmpty = true))]
            apply ih
            · have hdrop : (visible d).drop (arts.length + 1) = r :: rs :=
                drop_of_drop_eq_cons hpend2
              simpa using hdrop.symm
            · simpa using hbuild2

/-- C3: in a collection run starting from the empty session list, the
committed article list is the node-wise build of the first
`len(collected)` entries of the final visible list: after every load the
loop re-reads the full visible list and skips the first `len(collected)`
entries, so (provided each load extends the visible list in order) no
visible position is extracted into the committed list twice. -/
theorem pagination_dedup_by_count :
    ∀ (visible : Nat → List ArticleNode) (loadsAvail : Nat) (today : Date) (term : String)
      (months fuel : Nat),
      (∀ k, visible k <+: visible (k + 1)) →
      buildAll term
          ((visible ((collect_articles visible loadsAvail today term months fuel []).2.1)).take
            (collect_articles visible loadsAvail today term months fuel []).1.length) =
        Except.ok (collect_articles visible loadsAvail today term months fuel []).1 := by
  intro visible loadsAvail today term months fuel hpre
  exact collectLoop_dedup visible loadsAvail (monthsBack today months) term hpre fuel
    (visible 0) [] 0 (by simp) rfl

/-- Concrete two-node result list for the C3 witness. -/
def c3Visible : Nat → List ArticleNode :=
  fun _ => [⟨some "A", none, none, none⟩, ⟨some "B", none, none, none⟩]

/-- C3 (witness): the dedup statement on a concrete run over two visible
nodes (the stability hypothesis holds because the visible list is
constant). -/
theorem pagination_dedup_by_count_witness :
    buildAll "x"
        ((c3Visible ((collect_articles c3Visible 0 ⟨2024, 1, 1⟩ "x" 1 9 []).2.1)).take
          (collect_articles c3Visible 0 ⟨2024, 1, 1⟩ "x" 1 9 []).1.length) =
      Except.ok (collect_articles c3Visible 0 ⟨2024, 1, 1⟩ "x" 1 9 []).1 :=
  pagination_dedup_by_count c3Visible 0 ⟨2024, 1, 1⟩ "x" 1 9 (fun _ => List.prefix_rfl)

/-! Section: Claim C8 -/

/-- C8 (counterexample): the session list does not start empty on every
invocation — `self.articles` is created once in `__init__`; a second call
to `collect_articles` (here over a result list with no nodes at all)
still returns the article collected by the first call, so its session
list contained an article from an earlier invocation. -/
theorem session_list_persists_across_invocations :
    (collect_articles (fun _ => [⟨some "T", none, none, none⟩]) 0 ⟨2024, 1, 1⟩ "x" 1 3
        initialArticles).1 = [⟨some "T", none, none, none, none, 0, false, "x"⟩] ∧
    (collect_articles (fun _ => []) 0 ⟨2024, 1, 1⟩ "x" 1 3
        (collect_articles (fun _ => [⟨some "T", none, none, none⟩]) 0 ⟨2024, 1, 1⟩ "x" 1 3
          initialArticles).1).1 =
      [⟨some "T", none, none, none, none, 0, false, "x"⟩] ∧
    ([⟨some "T", none, none, none, none, 0, false, "x"⟩] : List Article) ≠ [] := by
  refine ⟨by decide, by decide, by decide⟩

/-- C8 (amended): the session list is created empty once per scraper
instance (in `__init__`) and is never reset by `collect_articles`; each
invocation only appends, so the list on entry is always a prefix of the
list on exit and articles accumulate across invocations. -/
theorem session_list_append_only :
    initialArticles = [] ∧
    ∀ (visible : Nat → List ArticleNode) (loadsAvail : Nat) (limit : Date) (term : String)
      (fuel : Nat) (pending : List ArticleNode) (arts : List Article) (d : Nat),
      arts <+: (collectLoop visible loadsAvail limit term fuel pending arts d).1 := by
  refine ⟨rfl, ?_⟩
  intro visible loadsAvail limit term fuel
  induction fuel with
  | zero =>
    intro pending arts d
    exact List.prefix_rfl
  | succ fuel ih =>
    intro pending arts d
    cases pending with
    | nil => exact List.prefix_rfl
    | cons node rest =>
      cases hb : Article.build node term with
      | error e =>
        rw [collectLoop_cons_error visible loadsAvail limit term fuel node rest arts d e hb]
      | ok a =>
        rw [collectLoop_cons_ok visible loadsAvail limit term fuel node rest arts d a hb]
        by_cases hoff : offending a limit = true
        · rw [if_pos hoff]
        · rw [if_neg hoff]
          have hstep : arts <+: arts ++ [a] := List.prefix_append arts [a]
          cases rest with
          | nil =>
            rw [if_pos List.isEmpty_nil]
            by_cases hd : d < loadsAvail
            · rw [if_pos hd]
              exact hstep.trans (ih _ _ _)
            · rw [if_neg hd]
              exact hstep
          | cons r rs =>
            rw [if_neg (by simp : ¬((r :: rs).isEmpty = true))]
            exact hstep.trans (ih _ _ _)

end AljazeeraScraper
